import Mathlib

/-!
Verification model of `bstree.h` (namespace `fsa`): an unbalanced binary
search tree with a sentinel header node.  Three layers:

* A favorable layer (`BTree`, `FState`, and the heap `HTree` with the
  sentinel's three aliased pointer fields and the `father`-walking
  iterator).  The node constructors of the source leave a fresh node's
  `left`/`right` uninitialized and nothing ever writes `nullptr` there;
  this layer reads such a member as null, the reading most favorable to
  the program.  It is used only to refute claims: what fails here fails
  a fortiori.

* An initialization layer for the node copy constructor (`IChild`,
  `cloneField`): a clone's absent-child fields stay unwritten.

* A strict layer (`SNode`, `STree` with every field tracked by `Init`):
  reading a field no statement ever wrote, or dereferencing null, is
  undefined (`none`).  This layer shows which source paths are
  undefined: the descent of the second `insert`, `find` on the empty
  tree or for an absent value, and the recursive node destructor run by
  `clear`.
-/

/-- Structural view of the real (non-sentinel) nodes: `leaf` is a null
child pointer, `node l v r` a heap node with element `v`. -/
inductive BTree where
  | leaf : BTree
  | node : BTree → Int → BTree → BTree
deriving DecidableEq, Repr

/-- In-order element list of a subtree (left, element, right). -/
def elems : BTree → List Int
  | .leaf => []
  | .node l v r => elems l ++ v :: elems r

/-- `bstree<T>::insert` (bstree.h lines 250-299), structural part.  The
source loop descends comparing `_val == _ptr->data` (return, no-op) and
`_val < _ptr->data` (left, else right), then attaches the new node on
the side chosen by the same comparison against `_prev->data`; the
recursion below performs the identical descent and attachment.  The
empty-tree branch (line 256) creates the root.  Fresh nodes are built
by `bst_node(T, bst_node*)` (line 37), which leaves `left`/`right`
uninitialized; `leaf` here is the favorable null reading of such a
member, so this recursion is only used on traces whose descent reads no
unwritten member (the strict model `sInsert` below tracks
initialization faithfully). -/
def insertT : BTree → Int → BTree
  | .leaf, v => .node .leaf v .leaf
  | .node l d r, v =>
    if v = d then .node l d r
    else if v < d then .node (insertT l v) d r
    else .node l d (insertT r v)

/-- State of one `bstree` object: the root subtree, the `_size` field,
and whether the sentinel header node is still allocated.  The header's
cached extrema pointers live in the heap model below. -/
structure FState where
  root : BTree
  size : Nat
  sentinelAlloc : Bool
deriving DecidableEq, Repr

/-- `bstree()` (bstree.h lines 156-157): allocates the sentinel, all
three of its links self-referential (empty tree), `_size` zero. -/
def emptyF : FState := ⟨.leaf, 0, true⟩

/-- `bstree<T>::insert` (lines 250-299) on the object state: the root
subtree is rebuilt by the descent/attach; the body contains no
statement mentioning `_size`, so the size field is unchanged. -/
def insertF (s : FState) (v : Int) : FState :=
  { s with root := insertT s.root v }

/-- `bstree(value_type&)` (bstree.h lines 159-163): the member
initializer list sets `_header_ptr(nullptr)`, then the body evaluates
`_root()`, i.e. `_header_ptr->father`, dereferencing the null header
pointer; no state is ever produced. -/
def bstreeValCtor (v : Int) : Option FState :=
  let headerPtr : Option Unit := none
  match headerPtr with
  | none => none
  | some _ => some ⟨.node .leaf v .leaf, 1, true⟩

/-- A child-pointer field of a cloned node: `undef` when the
constructor never wrote the field, `nullp` for a written null pointer,
`node` for a written pointer to a node with its own two fields. -/
inductive IChild where
  | undef : IChild
  | nullp : IChild
  | node : IChild → Int → IChild → IChild
deriving DecidableEq, Repr

/-- `bst_node` copy constructor (bstree.h lines 21-25) viewed from a
child field of the clone: when the source child is null the guard
`if(other.left)` skips the assignment and the clone's field stays
uninitialized (`undef`); otherwise the child subtree is cloned
recursively. -/
def cloneField : BTree → IChild
  | .leaf => .undef
  | .node l v r => .node (cloneField l) v (cloneField r)

/-- Clone of a whole node `node l v r` by the copy constructor: both
child fields are produced by `cloneField`. -/
def cloneNode (l : BTree) (v : Int) (r : BTree) : IChild :=
  .node (cloneField l) v (cloneField r)

/-- In-order traversal reading the clone's child fields: reading an
uninitialized field is not defined (`none`). -/
def inorderI : IChild → Option (List Int)
  | .undef => none
  | .nullp => some []
  | .node l v r => do pure ((← inorderI l) ++ v :: (← inorderI r))

/-- A field value as left by a constructor: written, or uninitialized. -/
inductive Init (α : Type) where
  | undef : Init α
  | val : α → Init α
deriving DecidableEq, Repr

/-- `bst_node()` (bstree.h line 18): empty initializer list, empty
body — data, father, left and right are all left uninitialized. -/
def bstNodeDefaultCtor :
    Init Int × Init (Option Nat) × Init (Option Nat) × Init (Option Nat) :=
  (.undef, .undef, .undef, .undef)

/-- `bstree<T>::operator=` (bstree.h lines 206-219): `clear()` the
destination, then when the source is non-empty install a deep clone of
the source root parented at the destination's sentinel.  The body never
mentions `_size`, so the destination size is returned unchanged; the
destination root is `none` (still the sentinel) for an empty source. -/
def copyAssign (destSize : Nat) (src : BTree) : Nat × Option IChild :=
  (destSize,
    match src with
    | .leaf => none
    | .node l v r => some (cloneNode l v r))

/-- In-order traversal of a destination produced by `copyAssign`: an
empty tree yields the empty sequence, otherwise the clone is walked. -/
def destTraversal : Option IChild → Option (List Int)
  | none => some []
  | some c => inorderI c

/-- `bst_node` move constructor (bstree.h lines 27-35): the new node
takes `other.left` and `other.right`, then executes
`left->father = right->father = this` with no null check — a null
dereference whenever either child is absent — and finally nulls the
source's links.  The result is the new node's subtree together with the
source's left and right links after the move. -/
def moveNodeCtor (dataV : Int) (otherLeft otherRight : Option BTree) :
    Option (BTree × Option BTree × Option BTree) :=
  match otherLeft, otherRight with
  | some l, some r => some (.node l dataV r, none, none)
  | _, _ => none

/-- One heap node of `bst_node`: data, father, left, right.  A pointer
is `Option Nat` (an address or null); `data` is `none` while never
written (the sentinel's data field). -/
structure HNode where
  data : Option Int
  father : Option Nat
  left : Option Nat
  right : Option Nat
deriving DecidableEq, Repr

/-- Heap-level state of a `bstree`: the heap (address = list index) and
the address of the sentinel header node. -/
structure HTree where
  heap : List HNode
  header : Nat
deriving DecidableEq, Repr

/-- Read the node at an address. -/
def readN (t : HTree) (a : Nat) : Option HNode := t.heap[a]?

/-- Dereference a nullable pointer; dereferencing null is undefined. -/
def derefP (t : HTree) (p : Option Nat) : Option HNode := p.bind (readN t)

/-- Overwrite the node at an address. -/
def writeN (t : HTree) (a : Nat) (n : HNode) : HTree :=
  { t with heap := t.heap.set a n }

/-- Allocate a fresh node, returning its address. -/
def allocN (t : HTree) (n : HNode) : HTree × Nat :=
  ({ t with heap := t.heap ++ [n] }, t.heap.length)

/-- `bstree()` (lines 156-157) at heap level: a single sentinel whose
father, left and right all point to itself. -/
def emptyHTree : HTree :=
  { heap := [⟨none, some 0, some 0, some 0⟩], header := 0 }

/-- Descent loop of `insert` (lines 264-277): result `some none` when
an equal value is met (the source returns, a no-op), `some (some prev)`
with the attachment node when a null child is reached; the fuel bounds
the loop, exhaustion is `none`. -/
def insertFind (t : HTree) (v : Int) : Nat → Option Nat → Nat → Option (Option Nat)
  | 0, _, _ => none
  | fuel + 1, ptr, prev =>
    match ptr with
    | none => some (some prev)
    | some a => do
      let n ← readN t a
      let d ← n.data
      if v = d then some none
      else insertFind t v fuel (if v < d then n.left else n.right) a

/-- `bstree<T>::insert` (bstree.h lines 250-299) at heap level,
including the extrema-cache adjustment of lines 289-297, which moves
`_header_ptr->left` to its own left child and `_header_ptr->right` to
its own right child when those are non-null.  Child pointers the
source leaves uninitialized in a freshly allocated node are modelled
as null. -/
def insertH (t : HTree) (v : Int) : Option HTree := do
  let H ← readN t t.header
  if H.father = some t.header then
    let p := allocN t ⟨some v, some t.header, none, none⟩
    let H1 ← readN p.1 p.1.header
    pure (writeN p.1 p.1.header
      { H1 with father := some p.2, left := some p.2, right := some p.2 })
  else
    match H.father with
    | none => none
    | some rootA => do
      let r ← insertFind t v (t.heap.length + 1) (some rootA) rootA
      match r with
      | none => pure t
      | some prevA => do
        let p ← readN t prevA
        let pd ← p.data
        let q := allocN t ⟨some v, some prevA, none, none⟩
        let t2 := if v < pd then writeN q.1 prevA { p with left := some q.2 }
                  else writeN q.1 prevA { p with right := some q.2 }
        let H2 ← readN t2 t2.header
        let hl ← derefP t2 H2.left
        let t3 := match hl.left with
          | some b => writeN t2 t2.header { H2 with left := some b }
          | none => t2
        let H3 ← readN t3 t3.header
        let hr ← derefP t3 H3.right
        let t4 := match hr.right with
          | some b => writeN t3 t3.header { H3 with right := some b }
          | none => t3
        pure t4

/-- `front()` (line 174): `_left_most()->data`, and `_left_most()`
(line 151) is the sentinel's `right` field. -/
def frontH (t : HTree) : Option Int := do
  let H ← readN t t.header
  let m ← derefP t H.right
  m.data

/-- `back()` (line 175): `_right_most()->data`, and `_right_most()`
(line 152) is the sentinel's `left` field. -/
def backH (t : HTree) : Option Int := do
  let H ← readN t t.header
  let m ← derefP t H.left
  m.data

/-- `begin()` (line 172): an iterator holding `_left_most()`, the
sentinel's `right` field. -/
def beginH (t : HTree) : Option (Option Nat) := do
  let H ← readN t t.header
  pure H.right

/-- `end()` (line 173): an iterator holding the sentinel's address. -/
def endH (t : HTree) : Option Nat := some t.header

/-- Descent of `operator++` into the right subtree (lines 65-72):
follow `left` while non-null. -/
def downLeft (t : HTree) : Nat → Option Nat → Option (Option Nat)
  | 0, _ => none
  | fuel + 1, ptr => do
    let n ← derefP t ptr
    match n.left with
    | some b => downLeft t fuel (some b)
    | none => pure ptr

/-- Upward walk of `operator++` (lines 76-82): climb `father` links
while the previous node is the `right` child of the current one. -/
def upLoop (t : HTree) : Nat → Option Nat → Option Nat → Option (Option Nat)
  | 0, _, _ => none
  | fuel + 1, prev, ptr => do
    let n ← derefP t ptr
    if prev = n.right then upLoop t fuel ptr n.father
    else pure ptr

/-- `bst_iterator::operator++` (bstree.h lines 62-85), the in-order
successor step, with the member the source spells `this->ptr` read as
the iterator's node pointer `_ptr`. -/
def succH (t : HTree) (ptr : Option Nat) : Option (Option Nat) := do
  let n ← derefP t ptr
  match n.right with
  | some b => downLeft t (t.heap.length + 1) (some b)
  | none => upLoop t (t.heap.length + 1) ptr n.father

/-- The tree produced by `insert(5); insert(3)` on a default-constructed
tree. -/
def t53 : Option HTree := do insertH (← insertH emptyHTree 5) 3

/-- Strict model of `bst_node`: every field carries its initialization
state.  `Init.undef` until some source statement writes the field. -/
structure SNode where
  data : Init Int
  father : Init (Option Nat)
  left : Init (Option Nat)
  right : Init (Option Nat)
deriving DecidableEq, Repr

/-- Strict heap state: a slot is `none` once freed; the header is the
sentinel's address. -/
structure STree where
  sheap : List (Option SNode)
  sheader : Nat
deriving DecidableEq, Repr

/-- Strict read of the node at an address; a freed or absent slot is
undefined. -/
def sRead (t : STree) (a : Nat) : Option SNode := (t.sheap[a]?).bind id

/-- Strict read of a field: reading a member no statement ever wrote is
undefined. -/
def sGet {α : Type} : Init α → Option α
  | .undef => none
  | .val a => some a

/-- Overwrite the node at an address. -/
def sWrite (t : STree) (a : Nat) (n : SNode) : STree :=
  { t with sheap := t.sheap.set a (some n) }

/-- Allocate a fresh node, returning its address. -/
def sAlloc (t : STree) (n : SNode) : STree × Nat :=
  ({ t with sheap := t.sheap ++ [some n] }, t.sheap.length)

/-- Free the node at an address (`operator delete`). -/
def sFree (t : STree) (a : Nat) : STree :=
  { t with sheap := t.sheap.set a none }

/-- `bstree()` (lines 156-157), strictly: `new node_type()` runs the
default constructor, which writes nothing, then the body writes the
sentinel's father, left and right to itself; its data stays
uninitialized. -/
def emptyS : STree :=
  { sheap := [some ⟨.undef, .val (some 0), .val (some 0), .val (some 0)⟩],
    sheader := 0 }

/-- Descent loop of `insert` (lines 264-277), strictly: each step reads
the current node's data and then, on inequality, the chosen child
member — which `bst_node(T, bst_node*)` (line 37) never initialized
unless a later insert attached there.  Result `some none` on an equal
value (the source returns), `some (some prev)` with the attachment node
on a null child; fuel exhaustion is `none`. -/
def sInsertFind (t : STree) (v : Int) : Nat → Option Nat → Nat → Option (Option Nat)
  | 0, _, _ => none
  | fuel + 1, ptr, prev =>
    match ptr with
    | none => some (some prev)
    | some a => do
      let n ← sRead t a
      let d ← sGet n.data
      if v = d then some none
      else do
        let next ← sGet (if v < d then n.left else n.right)
        sInsertFind t v fuel next a

/-- `bstree<T>::insert` (lines 250-299), strictly.  A fresh node's
`left`/`right` are `Init.undef` exactly as `bst_node(T, bst_node*)`
(line 37) leaves them; the cache adjustment of lines 289-297 is
transcribed with strict reads. -/
def sInsert (t : STree) (v : Int) : Option STree := do
  let H ← sRead t t.sheader
  let rootP ← sGet H.father
  if rootP = some t.sheader then
    let p := sAlloc t ⟨.val v, .val (some t.sheader), .undef, .undef⟩
    let H1 ← sRead p.1 p.1.sheader
    pure (sWrite p.1 p.1.sheader
      { H1 with father := .val (some p.2), left := .val (some p.2),
                right := .val (some p.2) })
  else
    match rootP with
    | none => none
    | some rootA => do
      let r ← sInsertFind t v (t.sheap.length + 1) (some rootA) rootA
      match r with
      | none => pure t
      | some prevA => do
        let p ← sRead t prevA
        let pd ← sGet p.data
        let q := sAlloc t ⟨.val v, .val (some prevA), .undef, .undef⟩
        let t2 := if v < pd then sWrite q.1 prevA { p with left := .val (some q.2) }
                  else sWrite q.1 prevA { p with right := .val (some q.2) }
        let H2 ← sRead t2 t2.sheader
        let hlA ← sGet H2.left
        let hl ← match hlA with
          | none => none
          | some a => sRead t2 a
        let hlL ← sGet hl.left
        let t3 := match hlL with
          | some b => sWrite t2 t2.sheader { H2 with left := .val (some b) }
          | none => t2
        let H3 ← sRead t3 t3.sheader
        let hrA ← sGet H3.right
        let hr ← match hrA with
          | none => none
          | some a => sRead t3 a
        let hrR ← sGet hr.right
        let t4 := match hrR with
          | some b => sWrite t3 t3.sheader { H3 with right := .val (some b) }
          | none => t3
        pure t4

/-- Loop of `find` (lines 226-238), strictly: `while (_ptr != nullptr)`
reads the node's data, stops on equality (`some (some a)`), otherwise
reads the chosen child member strictly; `some none` is loop exit with a
null `_ptr`. -/
def sFindLoop (t : STree) (v : Int) : Nat → Option Nat → Option (Option Nat)
  | 0, _ => none
  | fuel + 1, ptr =>
    match ptr with
    | none => some none
    | some a => do
      let n ← sRead t a
      let d ← sGet n.data
      if v = d then some (some a)
      else do
        let next ← sGet (if v < d then n.left else n.right)
        sFindLoop t v fuel next

/-- `bstree<T>::find` (bstree.h lines 221-248), strictly.  There is no
empty guard: `_ptr` starts at `_root()`, which for the empty tree is
the non-null sentinel itself, so the loop enters the sentinel and reads
its uninitialized data.  The result is the returned iterator's address:
the sentinel (`end()`) after a null `_ptr`, the found node on a break.
-/
def sFind (t : STree) (v : Int) : Option Nat := do
  let H ← sRead t t.sheader
  let rootP ← sGet H.father
  let res ← sFindLoop t v (t.sheap.length + 1) rootP
  match res with
  | none => pure t.sheader
  | some a => pure a

/-- `delete` of a `bst_node*` (destructor, bstree.h lines 38-42),
strictly: deleting null is a no-op; otherwise `~bst_node` reads the
node's `left` member, deletes it, reads `right`, deletes it, and the
node is freed.  The fringe nodes of every insert- or copy-built tree
have uninitialized child members, so these reads are undefined. -/
def sDelete : Nat → STree → Option Nat → Option STree
  | _, t, none => some t
  | 0, _, some _ => none
  | fuel + 1, t, some a => do
    let n ← sRead t a
    let lp ← sGet n.left
    let t1 ← sDelete fuel t lp
    let rp ← sGet n.right
    let t2 ← sDelete fuel t1 rp
    pure (sFree t2 a)

/-- `bstree<T>::clear` (bstree.h lines 187-195), strictly: when not
empty, `delete _root()` runs the recursive node destructor, then the
root is reset to the sentinel. -/
def sClear (t : STree) : Option STree := do
  let H ← sRead t t.sheader
  let rootP ← sGet H.father
  if rootP = some t.sheader then pure t
  else do
    let t1 ← sDelete (t.sheap.length + 1) t rootP
    let H1 ← sRead t1 t1.sheader
    pure (sWrite t1 t1.sheader { H1 with father := .val (some t1.sheader) })


theorem inorderI_cloneField (t : BTree) : inorderI (cloneField t) = none := by
  induction t with
  | leaf => rfl
  | node l v r ihl ihr => simp [cloneField, inorderI, ihl]

/-- C9: the node copy constructor never writes the clone's child field
when the source child is absent, and the default node constructor
initializes no field, so clones have uninitialized absent-child
pointers and any in-order read of a clone is not defined. -/
theorem clone_absent_children_uninitialized :
    (∀ v : Int, ∀ r : BTree, cloneNode .leaf v r = .node .undef v (cloneField r)) ∧
    (∀ l : BTree, ∀ v : Int, cloneNode l v .leaf = .node (cloneField l) v .undef) ∧
    bstNodeDefaultCtor = (.undef, .undef, .undef, .undef) ∧
    (∀ l : BTree, ∀ v : Int, ∀ r : BTree, inorderI (cloneNode l v r) = none) :=
  ⟨fun _ _ => rfl, fun _ _ => rfl, rfl,
   fun l v r => inorderI_cloneField (.node l v r)⟩

/-- Witness for C9 at the clone of a single node holding 5. -/
theorem clone_absent_children_uninitialized_witness :
    cloneNode .leaf 5 .leaf = .node .undef 5 (cloneField .leaf) ∧
    inorderI (cloneNode .leaf 5 .leaf) = none :=
  ⟨clone_absent_children_uninitialized.1 5 .leaf,
   clone_absent_children_uninitialized.2.2.2 .leaf 5 .leaf⟩

/-- C10: the single-value constructor `bstree(value_type&)` sets the
header pointer to null and then dereferences it through `_root()`, so
for every value it crashes and never yields a one-element tree. -/
theorem bstreeValCtor_null_deref (v : Int) : bstreeValCtor v = none := rfl

/-- Witness for C10 at the value 7. -/
theorem bstreeValCtor_null_deref_witness : bstreeValCtor 7 = none :=
  bstreeValCtor_null_deref 7

/-- C1, evaluated at the failing input `insert(5); insert(3)`: the
sentinel's right field holds the node with 5 (the maximum) and its left
field the node with 3 (the minimum), so `front()` returns 5 and
`back()` returns 3 — the opposite of the claimed roles. -/
theorem sentinel_extrema_swapped_at_5_3 :
    (t53 >>= frontH) = some 5 ∧ (t53 >>= backH) = some 3 ∧
    (t53 >>= fun t => (readN t t.header).map HNode.right) = some (some 1) ∧
    (t53 >>= fun t => (derefP t (some 1)).map HNode.data) = some (some 5) ∧
    (t53 >>= fun t => (readN t t.header).map HNode.left) = some (some 2) ∧
    (t53 >>= fun t => (derefP t (some 2)).map HNode.data) = some (some 3) := by
  decide

/-- C2, evaluated at the failing input `insert(5); insert(3)`:
`begin()` holds the node with 5 (the maximum, not the minimum), and
`operator++` applied there yields the same node again instead of
`end()` (the sentinel, address 0), so repeated increment from `begin()`
yields 5, 5, ... — neither strictly ascending, nor `size()` many, nor
reaching `end()` from the node holding the largest value. -/
theorem iterator_stuck_at_5_3 :
    (t53 >>= beginH) = some (some 1) ∧
    (t53 >>= fun t => (derefP t (some 1)).map HNode.data) = some (some 5) ∧
    (t53 >>= fun t => succH t (some 1)) = some (some 1) ∧
    (t53.map endH) = some (some 0) ∧
    (some 1 : Option Nat) ≠ some 0 := by
  decide

/-- C3, evaluated at the failing input `insert(5)` on the empty tree:
`insert` contains no update of `_size`, so `size()` stays 0 where the
claim requires 1, and inserting 5 again still leaves 0 although one
real node is present. -/
theorem insert_never_increments_size :
    (insertF emptyF 5).size = 0 ∧ (insertF (insertF emptyF 5) 5).size = 0 ∧
    elems (insertF (insertF emptyF 5) 5).root = [5] := by
  decide

/-- C6, evaluated at nodes with missing children: the move constructor
writes through both child pointers unconditionally, so it dereferences
null for a node with zero children or one child; it only performs the
claimed transfer when both children are present. -/
theorem move_ctor_null_deref_on_missing_child :
    moveNodeCtor 5 none none = none ∧
    moveNodeCtor 5 (some (.node .leaf 3 .leaf)) none = none ∧
    moveNodeCtor 5 none (some (.node .leaf 8 .leaf)) = none ∧
    moveNodeCtor 5 (some (.node .leaf 3 .leaf)) (some (.node .leaf 8 .leaf)) =
      some (.node (.node .leaf 3 .leaf) 5 (.node .leaf 8 .leaf), none, none) :=
  ⟨rfl, rfl, rfl, rfl⟩

/-- C7, evaluated at a one-element source holding 5: the destination's
cloned root has both child fields uninitialized, so the in-order
traversal of the destination is undefined instead of yielding [5], and
the destination's `_size` passes through unchanged instead of matching
the source. -/
theorem copy_assign_dest_traversal_undefined :
    (copyAssign 0 (.node .leaf 5 .leaf)).2 = some (.node .undef 5 .undef) ∧
    destTraversal (copyAssign 0 (.node .leaf 5 .leaf)).2 = none ∧
    elems (.node .leaf 5 .leaf) = [5] ∧
    (copyAssign 7 (.node .leaf 5 .leaf)).1 = 7 := by
  decide


/-- C4, evaluated faithfully at the failing input `insert(5);
insert(3)`: the first insert succeeds, but the second one's descent
reads the root's `left` member, which `bst_node(T, bst_node*)` (line
37) never initialized and no statement ever wrote — undefined (and
symmetrically `insert(8)` reads the unwritten `right`).  From the
second insert on no tree is reliably produced, so the claimed
invariant over all insert-reachable trees does not hold of the
program. -/
theorem strict_insert_undefined_from_second_insert :
    (sInsert emptyS 5).isSome = true ∧
    ((sInsert emptyS 5) >>= fun t => sInsert t 3) = none ∧
    ((sInsert emptyS 5) >>= fun t => sInsert t 8) = none := by
  decide

/-- C5, evaluated faithfully: `find` has no empty guard, so on the
empty tree `_ptr` starts at the non-null sentinel and the loop reads
the sentinel's uninitialized data — undefined, not `end()`; on the
one-node tree built by `insert(5)`, `find(3)` reads the root's
unwritten child member — undefined, not `end()`; only `find(5)` there
returns the iterator to the node holding 5 (address 1, not the
sentinel 0). -/
theorem strict_find_undefined_when_absent :
    sFind emptyS 3 = none ∧
    ((sInsert emptyS 5) >>= fun t => sFind t 3) = none ∧
    ((sInsert emptyS 5) >>= fun t => sFind t 5) = some 1 ∧
    (some 1 : Option Nat) ≠ some 0 := by
  decide

/-- C8, evaluated faithfully at the failing input `clear()` after
`insert(5)`: `delete _root()` runs `~bst_node`, which executes
`delete left; delete right` on the root's unwritten child members —
undefined before the root reset ever executes; only the empty-tree
guard path of `clear()` completes. -/
theorem strict_clear_undefined_on_nonempty :
    (sInsert emptyS 5).isSome = true ∧
    ((sInsert emptyS 5) >>= sClear) = none ∧
    sClear emptyS = some emptyS := by
  decide
